import Mathlib

set_option maxRecDepth 10000

/-!
A shallow embedding of the hardfork-aware request-validation core of the
`edr_provider` crate (`src/crates/edr_provider/src/requests/validation.rs`
and `src/crates/edr_provider/src/requests/eth/evm.rs`), together with
theorems about its behaviour.

External types of the workspace that the two files use but do not define
(`SpecId`, `U256`, the transaction shapes, the block-spec shapes, the
`MAX_INITCODE_SIZE` constant) are modelled from the specification's
description of them; `U256`, `B256` and `Address` values are modelled as
`Nat`, `Bytes` as `List Nat`.
-/

namespace EdrProvider

/-- Modelled from the spec: the totally ordered hardfork identifier
(`edr_eth::SpecId`, whose definition is not under `src/`): "a totally
ordered identifier of protocol upgrades (e.g. pre-EIP-155 legacy, …,
Berlin, London, Merge, Shanghai, Cancun)". The listed order of the named
upgrades is the only fact of it the validation code relies on. -/
inductive SpecId where
  | FRONTIER
  | FRONTIER_THAWING
  | HOMESTEAD
  | DAO_FORK
  | TANGERINE
  | SPURIOUS_DRAGON
  | BYZANTIUM
  | CONSTANTINOPLE
  | PETERSBURG
  | ISTANBUL
  | MUIR_GLACIER
  | BERLIN
  | LONDON
  | ARROW_GLACIER
  | GRAY_GLACIER
  | MERGE
  | SHANGHAI
  | CANCUN
  | LATEST
  deriving DecidableEq

/-- The discriminant of a hardfork identifier: its position in the ordered
listing of protocol upgrades. -/
def SpecId.toNat : SpecId → Nat
  | .FRONTIER => 0
  | .FRONTIER_THAWING => 1
  | .HOMESTEAD => 2
  | .DAO_FORK => 3
  | .TANGERINE => 4
  | .SPURIOUS_DRAGON => 5
  | .BYZANTIUM => 6
  | .CONSTANTINOPLE => 7
  | .PETERSBURG => 8
  | .ISTANBUL => 9
  | .MUIR_GLACIER => 10
  | .BERLIN => 11
  | .LONDON => 12
  | .ARROW_GLACIER => 13
  | .GRAY_GLACIER => 14
  | .MERGE => 15
  | .SHANGHAI => 16
  | .CANCUN => 17
  | .LATEST => 18

instance : LT SpecId := ⟨fun a b => a.toNat < b.toNat⟩

instance : LE SpecId := ⟨fun a b => a.toNat ≤ b.toNat⟩

instance (a b : SpecId) : Decidable (a < b) :=
  inferInstanceAs (Decidable (a.toNat < b.toNat))

instance (a b : SpecId) : Decidable (a ≤ b) :=
  inferInstanceAs (Decidable (a.toNat ≤ b.toNat))

theorem SpecId.not_lt (a b : SpecId) : ¬ a < b ↔ b ≤ a := Nat.not_lt

/-- Modelled from the spec: the text the Rust debug formatter
(`{minimum_hardfork:?}` in the diagnostic messages) renders a hardfork
identifier as — the variant's name. -/
def SpecId.debugFormat : SpecId → String
  | .FRONTIER => "FRONTIER"
  | .FRONTIER_THAWING => "FRONTIER_THAWING"
  | .HOMESTEAD => "HOMESTEAD"
  | .DAO_FORK => "DAO_FORK"
  | .TANGERINE => "TANGERINE"
  | .SPURIOUS_DRAGON => "SPURIOUS_DRAGON"
  | .BYZANTIUM => "BYZANTIUM"
  | .CONSTANTINOPLE => "CONSTANTINOPLE"
  | .PETERSBURG => "PETERSBURG"
  | .ISTANBUL => "ISTANBUL"
  | .MUIR_GLACIER => "MUIR_GLACIER"
  | .BERLIN => "BERLIN"
  | .LONDON => "LONDON"
  | .ARROW_GLACIER => "ARROW_GLACIER"
  | .GRAY_GLACIER => "GRAY_GLACIER"
  | .MERGE => "MERGE"
  | .SHANGHAI => "SHANGHAI"
  | .CANCUN => "CANCUN"
  | .LATEST => "LATEST"

/-- Modelled from the spec: one access-list entry, "{address, storage
keys}" (`edr_eth::access_list::AccessListItem`, not under `src/`). -/
structure AccessListItem where
  address : Nat
  storage_keys : List Nat
  deriving DecidableEq

/-- Modelled from the spec: the set of block tags, "(earliest, latest,
pending, safe, finalized)" (`edr_eth::remote::BlockTag`, not under
`src/`). -/
inductive BlockTag where
  | Earliest
  | Latest
  | Pending
  | Safe
  | Finalized
  deriving DecidableEq

/-- The violation type `ProviderError` as the validation code of
`validation.rs` and `evm.rs` constructs and matches it; only the variants
those two files mention are modelled. -/
inductive ProviderError where
  | InvalidArgument (message : String)
  | InvalidBlockTag (block_tag : BlockTag) (spec : SpecId)
  | InvalidTransactionInput (message : String)
  | Unimplemented (feature : String)
  | UnsupportedAccessListParameter (current_hardfork minimum_hardfork : SpecId)
  | UnsupportedEIP1559Parameters (current_hardfork minimum_hardfork : SpecId)
  | UnsupportedEIP4844Parameters (current_hardfork minimum_hardfork : SpecId)
  deriving DecidableEq

/-- `SpecValidationData` (validation.rs lines 14–21): the canonical
six-field validation view. -/
structure SpecValidationData where
  gas_price : Option Nat
  max_fee_per_gas : Option Nat
  max_priority_fee_per_gas : Option Nat
  access_list : Option (List AccessListItem)
  blobs : Option (List (List Nat))
  blob_hashes : Option (List Nat)
  deriving DecidableEq

/-- Modelled from the spec: the client-authored mutable transaction
request (`edr_eth::transaction::EthTransactionRequest`, not under `src/`);
only the six fields the `From` impl at validation.rs lines 23–34 reads are
kept. -/
structure EthTransactionRequest where
  gas_price : Option Nat
  max_fee_per_gas : Option Nat
  max_priority_fee_per_gas : Option Nat
  access_list : Option (List AccessListItem)
  blobs : Option (List (List Nat))
  blob_hashes : Option (List Nat)
  deriving DecidableEq

/-- Modelled from the spec: the read-only call request
(`edr_eth::remote::eth::CallRequest`, not under `src/`); only the six
fields the `From` impl at validation.rs lines 36–47 reads are kept. -/
structure CallRequest where
  gas_price : Option Nat
  max_fee_per_gas : Option Nat
  max_priority_fee_per_gas : Option Nat
  access_list : Option (List AccessListItem)
  blobs : Option (List (List Nat))
  blob_hashes : Option (List Nat)
  deriving DecidableEq

/-- Modelled from the spec: a signed legacy transaction (pre- or
post-EIP-155); only the field the validation view reads is kept. -/
structure LegacySignedTransaction where
  gas_price : Nat
  deriving DecidableEq

/-- Modelled from the spec: a signed EIP-2930 (access-list) transaction;
only the fields the validation view reads are kept. -/
structure Eip2930SignedTransaction where
  gas_price : Nat
  access_list : List AccessListItem
  deriving DecidableEq

/-- Modelled from the spec: a signed EIP-1559 (fee-market) transaction;
only the fields the validation view reads are kept. -/
structure Eip1559SignedTransaction where
  max_fee_per_gas : Nat
  max_priority_fee_per_gas : Nat
  access_list : List AccessListItem
  deriving DecidableEq

/-- Modelled from the spec: a signed EIP-4844 (blob) transaction; only the
fields the validation view reads are kept. -/
structure Eip4844SignedTransaction where
  max_fee_per_gas : Nat
  max_priority_fee_per_gas : Nat
  access_list : List AccessListItem
  blob_hashes : List Nat
  deriving DecidableEq

/-- Modelled from the spec: the closed five-variant signed-transaction sum
type (`edr_eth::transaction::SignedTransaction`, not under `src/`). -/
inductive SignedTransaction where
  | PreEip155Legacy (tx : LegacySignedTransaction)
  | PostEip155Legacy (tx : LegacySignedTransaction)
  | Eip2930 (tx : Eip2930SignedTransaction)
  | Eip1559 (tx : Eip1559SignedTransaction)
  | Eip4844 (tx : Eip4844SignedTransaction)
  deriving DecidableEq

/-- `From<&EthTransactionRequest> for SpecValidationData`
(validation.rs lines 23–34). -/
def SpecValidationData.ofEthTransactionRequest
    (value : EthTransactionRequest) : SpecValidationData where
  gas_price := value.gas_price
  max_fee_per_gas := value.max_fee_per_gas
  max_priority_fee_per_gas := value.max_priority_fee_per_gas
  access_list := value.access_list
  blobs := value.blobs
  blob_hashes := value.blob_hashes

/-- `From<&CallRequest> for SpecValidationData`
(validation.rs lines 36–47). -/
def SpecValidationData.ofCallRequest (value : CallRequest) : SpecValidationData where
  gas_price := value.gas_price
  max_fee_per_gas := value.max_fee_per_gas
  max_priority_fee_per_gas := value.max_priority_fee_per_gas
  access_list := value.access_list
  blobs := value.blobs
  blob_hashes := value.blob_hashes

/-- `From<&SignedTransaction> for SpecValidationData`
(validation.rs lines 49–94). -/
def SpecValidationData.ofSignedTransaction : SignedTransaction → SpecValidationData
  | .PreEip155Legacy tx =>
    { gas_price := some tx.gas_price
      max_fee_per_gas := none
      max_priority_fee_per_gas := none
      access_list := none
      blobs := none
      blob_hashes := none }
  | .PostEip155Legacy tx =>
    { gas_price := some tx.gas_price
      max_fee_per_gas := none
      max_priority_fee_per_gas := none
      access_list := none
      blobs := none
      blob_hashes := none }
  | .Eip2930 tx =>
    { gas_price := some tx.gas_price
      max_fee_per_gas := none
      max_priority_fee_per_gas := none
      access_list := some tx.access_list
      blobs := none
      blob_hashes := none }
  | .Eip1559 tx =>
    { gas_price := none
      max_fee_per_gas := some tx.max_fee_per_gas
      max_priority_fee_per_gas := some tx.max_priority_fee_per_gas
      access_list := some tx.access_list
      blobs := none
      blob_hashes := none }
  | .Eip4844 tx =>
    { gas_price := none
      max_fee_per_gas := some tx.max_fee_per_gas
      max_priority_fee_per_gas := some tx.max_priority_fee_per_gas
      access_list := some tx.access_list
      blobs := none
      blob_hashes := some tx.blob_hashes }

/-- The detail string the fee-ordering rule formats
(validation.rs lines 160–162). -/
def feeOrderingMessage (max_priority_fee_per_gas max_fee_per_gas : Nat) : String :=
  "maxPriorityFeePerGas (" ++ toString max_priority_fee_per_gas ++
    ") is bigger than maxFeePerGas (" ++ toString max_fee_per_gas ++ ")"

/-- `validate_transaction_spec` (validation.rs lines 96–168). -/
def validate_transaction_spec (spec_id : SpecId) (data : SpecValidationData) :
    Except ProviderError Unit :=
  if spec_id < SpecId.BERLIN ∧ data.access_list.isSome then
    .error (.UnsupportedAccessListParameter spec_id .BERLIN)
  else if spec_id < SpecId.LONDON ∧
      (data.max_fee_per_gas.isSome ∨ data.max_priority_fee_per_gas.isSome) then
    .error (.UnsupportedEIP1559Parameters spec_id .BERLIN)
  else if spec_id < SpecId.CANCUN ∧ (data.blobs.isSome ∨ data.blob_hashes.isSome) then
    .error (.UnsupportedEIP4844Parameters spec_id .CANCUN)
  else if data.gas_price.isSome ∧ data.max_fee_per_gas.isSome then
    .error (.InvalidTransactionInput "Cannot send both gasPrice and maxFeePerGas params")
  else if data.gas_price.isSome ∧ data.max_priority_fee_per_gas.isSome then
    .error (.InvalidTransactionInput "Cannot send both gasPrice and maxPriorityFeePerGas")
  else if data.gas_price.isSome ∧ data.blobs.isSome then
    .error (.InvalidTransactionInput "Cannot send both gasPrice and blobs")
  else if data.gas_price.isSome ∧ data.blob_hashes.isSome then
    .error (.InvalidTransactionInput "Cannot send both gasPrice and blobHashes")
  else
    match data.max_fee_per_gas, data.max_priority_fee_per_gas with
    | some max_fee_per_gas, some max_priority_fee_per_gas =>
      if max_priority_fee_per_gas > max_fee_per_gas then
        .error (.InvalidTransactionInput
          (feeOrderingMessage max_priority_fee_per_gas max_fee_per_gas))
      else
        .ok ()
    | _, _ => .ok ()

/-- The remediation message `validate_call_request` formats for an
unsupported-fee-market violation (validation.rs lines 183–187), trailing
newline and indentation of the Rust string literal included. -/
def eip1559UnsupportedMessage (minimum_hardfork : SpecId) : String :=
  "EIP-1559 style fee params (maxFeePerGas or maxPriorityFeePerGas) received but they are not supported by the current hardfork.\n\nYou can use them by running Hardhat Network with 'hardfork' " ++
    minimum_hardfork.debugFormat ++ " or later.\n        "

/-- The remediation message `validate_transaction_and_call_request`
formats for an unsupported-access-list violation (validation.rs lines
199–205), trailing newline and indentation of the Rust string literal
included. -/
def accessListUnsupportedMessage (minimum_hardfork : SpecId) : String :=
  "Access list received but is not supported by the current hardfork. \n\nYou can use them by running Hardhat Network with 'hardfork' " ++
    minimum_hardfork.debugFormat ++ " or later.\n        "

/-- `validate_transaction_and_call_request` (validation.rs lines 192–208). -/
def validate_transaction_and_call_request (spec_id : SpecId)
    (validation_data : SpecValidationData) : Except ProviderError Unit :=
  match validate_transaction_spec spec_id validation_data with
  | .error (.UnsupportedAccessListParameter _ minimum_hardfork) =>
    .error (.InvalidArgument (accessListUnsupportedMessage minimum_hardfork))
  | r => r

/-- Modelled from the spec: the EIP-1898 block specifier, "either a raw
block number, or a symbolic tag", plus the hash form of the newer wire
shape (`edr_eth::remote::BlockSpec`, not under `src/`). -/
inductive BlockSpec where
  | Number (block_number : Nat)
  | Tag (block_tag : BlockTag)
  | Hash (block_hash : Nat) (require_canonical : Option Bool)
  deriving DecidableEq

/-- Modelled from the spec: the older block specifier wire shape
(`edr_eth::remote::PreEip1898BlockSpec`, not under `src/`). -/
inductive PreEip1898BlockSpec where
  | Number (block_number : Nat)
  | Tag (block_tag : BlockTag)
  deriving DecidableEq

/-- `ValidationBlockSpec` (validation.rs lines 230–233). -/
inductive ValidationBlockSpec where
  | PreEip1898 (s : PreEip1898BlockSpec)
  | PostEip1898 (s : BlockSpec)
  deriving DecidableEq

/-- `From<ValidationBlockSpec> for BlockSpec` (validation.rs lines
247–259). -/
def ValidationBlockSpec.toBlockSpec : ValidationBlockSpec → BlockSpec
  | .PreEip1898 (.Number block_number) => .Number block_number
  | .PreEip1898 (.Tag block_tag) => .Tag block_tag
  | .PostEip1898 block_spec => block_spec

/-- `validate_post_merge_block_tags` (validation.rs lines 261–284). -/
def validate_post_merge_block_tags (hardfork : SpecId)
    (block_spec : ValidationBlockSpec) : Except ProviderError Unit :=
  if hardfork < SpecId.MERGE then
    match block_spec with
    | .PreEip1898 (.Tag BlockTag.Safe) => .error (.InvalidBlockTag .Safe hardfork)
    | .PreEip1898 (.Tag BlockTag.Finalized) => .error (.InvalidBlockTag .Finalized hardfork)
    | .PostEip1898 (.Tag BlockTag.Safe) => .error (.InvalidBlockTag .Safe hardfork)
    | .PostEip1898 (.Tag BlockTag.Finalized) => .error (.InvalidBlockTag .Finalized hardfork)
    | _ => .ok ()
  else
    .ok ()

/-- `validate_call_request` (validation.rs lines 170–190). -/
def validate_call_request (spec_id : SpecId) (call_request : CallRequest)
    (block_spec : BlockSpec) : Except ProviderError Unit :=
  match validate_post_merge_block_tags spec_id (.PostEip1898 block_spec) with
  | .error e => .error e
  | .ok () =>
    match validate_transaction_and_call_request spec_id
        (SpecValidationData.ofCallRequest call_request) with
    | .error (.UnsupportedEIP1559Parameters _ minimum_hardfork) =>
      .error (.InvalidArgument (eip1559UnsupportedMessage minimum_hardfork))
    | r => r

/-- Modelled from the spec: "the fixed protocol maximum" init-code size of
EIP-3860, `edr_evm::MAX_INITCODE_SIZE` (not under `src/`): 2 × 24576 =
49152 bytes. -/
def MAX_INITCODE_SIZE : Nat := 49152

/-- The message `validate_eip3860_max_initcode_size` formats on violation
(validation.rs lines 221–224), leading newline of the Rust string literal
included. -/
def initcodeSizeMessage (len : Nat) : String :=
  "\nTrying to send a deployment transaction whose init code length is " ++
    toString len ++ ". The max length allowed by EIP-3860 is " ++
    toString MAX_INITCODE_SIZE ++
    ".\n\nEnable the 'allowUnlimitedContractSize' option to allow init codes of any length."

/-- `validate_eip3860_max_initcode_size` (validation.rs lines 210–228). -/
def validate_eip3860_max_initcode_size (spec_id : SpecId)
    (allow_unlimited_contract_code_size : Bool) (to_address : Option Nat)
    (data : List Nat) : Except ProviderError Unit :=
  if spec_id < SpecId.SHANGHAI ∨ to_address.isSome ∨ allow_unlimited_contract_code_size then
    .ok ()
  else if data.length > MAX_INITCODE_SIZE then
    .error (.InvalidArgument (initcodeSizeMessage data.length))
  else
    .ok ()

/-- Modelled from the spec: the result of the external chain-state
component's `mine_and_commit_block` step, opaque to this core
(`edr_evm::MineBlockResult`, not under `src/`). -/
inductive MineBlockResult where
  | mk
  deriving DecidableEq

/-- `log_block` (evm.rs lines 56–58): stubbed to always fail with a
not-yet-implemented error. -/
def log_block (_mine_block_result : MineBlockResult) : Except ProviderError Unit :=
  .error (.Unimplemented "log_block")

/-- `handle_mine_request` (evm.rs lines 16–26). The external, stateful
`data.mine_and_commit_block(timestamp)` step is modelled by passing its
outcome in as a value. -/
def handle_mine_request
    (mine_and_commit_block_result : Except ProviderError MineBlockResult) :
    Except ProviderError String :=
  match mine_and_commit_block_result with
  | .error e => .error e
  | .ok mine_block_result =>
    match log_block mine_block_result with
    | .error e => .error e
    | .ok () => .ok "0"

/-- The validation view with every field absent. -/
def emptyData : SpecValidationData :=
  { gas_price := none
    max_fee_per_gas := none
    max_priority_fee_per_gas := none
    access_list := none
    blobs := none
    blob_hashes := none }

/-- The call request with every field absent. -/
def emptyCallRequest : CallRequest :=
  { gas_price := none
    max_fee_per_gas := none
    max_priority_fee_per_gas := none
    access_list := none
    blobs := none
    blob_hashes := none }

/-- Whether a validation outcome is the invalid-input
(`InvalidTransactionInput`) violation. -/
def resultIsInvalidInput : Except ProviderError Unit → Bool
  | .error (.InvalidTransactionInput _) => true
  | _ => false

/-- The four detail strings of the gas-price conflict rule
(validation.rs lines 131–155). -/
def gasPriceConflictMessages : List String :=
  ["Cannot send both gasPrice and maxFeePerGas params",
   "Cannot send both gasPrice and maxPriorityFeePerGas",
   "Cannot send both gasPrice and blobs",
   "Cannot send both gasPrice and blobHashes"]

/-- Modelled from the spec: the exact EIP-1559 rejection wording §6 quotes
(parametric in the rendered minimum hardfork), for comparison with what
the code builds. -/
def spec_eip1559_rejection_wording (minimum_hardfork : String) : String :=
  "EIP-1559 style fee params (maxFeePerGas or maxPriorityFeePerGas) received but they are not supported by the current hardfork.\n\nYou can use them by running Hardhat Network with 'hardfork' " ++
    minimum_hardfork ++ " or later."

/-- Modelled from the spec: the exact access-list rejection wording §6
quotes (parametric in the rendered minimum hardfork), for comparison with
what the code builds. -/
def spec_access_list_rejection_wording (minimum_hardfork : String) : String :=
  "Access list received but is not supported by the current hardfork. \n\nYou can use them by running Hardhat Network with 'hardfork' " ++
    minimum_hardfork ++ " or later."

/-- A `Bool` known to be `false` is not `true`. -/
theorem bool_eq_false_ne_true {b : Bool} (h : b = false) : ¬ b = true := by
  simp [h]

/-- Rule 1 of `validate_transaction_spec`: the access-list gate fires. -/
theorem vts_rule1 {spec_id : SpecId} {data : SpecValidationData}
    (h : spec_id < SpecId.BERLIN ∧ data.access_list.isSome = true) :
    validate_transaction_spec spec_id data =
      .error (.UnsupportedAccessListParameter spec_id SpecId.BERLIN) := by
  unfold validate_transaction_spec
  rw [if_pos h]

/-- Rule 2 of `validate_transaction_spec`: the fee-market gate fires. -/
theorem vts_rule2 {spec_id : SpecId} {data : SpecValidationData}
    (hn1 : ¬(spec_id < SpecId.BERLIN ∧ data.access_list.isSome = true))
    (h : spec_id < SpecId.LONDON ∧
      (data.max_fee_per_gas.isSome = true ∨ data.max_priority_fee_per_gas.isSome = true)) :
    validate_transaction_spec spec_id data =
      .error (.UnsupportedEIP1559Parameters spec_id SpecId.BERLIN) := by
  unfold validate_transaction_spec
  rw [if_neg hn1, if_pos h]

/-- Rule 3 of `validate_transaction_spec`: the blob gate fires. -/
theorem vts_rule3 {spec_id : SpecId} {data : SpecValidationData}
    (hn1 : ¬(spec_id < SpecId.BERLIN ∧ data.access_list.isSome = true))
    (hn2 : ¬(spec_id < SpecId.LONDON ∧
      (data.max_fee_per_gas.isSome = true ∨ data.max_priority_fee_per_gas.isSome = true)))
    (h : spec_id < SpecId.CANCUN ∧ (data.blobs.isSome = true ∨ data.blob_hashes.isSome = true)) :
    validate_transaction_spec spec_id data =
      .error (.UnsupportedEIP4844Parameters spec_id SpecId.CANCUN) := by
  unfold validate_transaction_spec
  rw [if_neg hn1, if_neg hn2, if_pos h]

/-- Rule 4 of `validate_transaction_spec`, first conflict: gas price with
max fee per gas. -/
theorem vts_rule4a {spec_id : SpecId} {data : SpecValidationData}
    (hn1 : ¬(spec_id < SpecId.BERLIN ∧ data.access_list.isSome = true))
    (hn2 : ¬(spec_id < SpecId.LONDON ∧
      (data.max_fee_per_gas.isSome = true ∨ data.max_priority_fee_per_gas.isSome = true)))
    (hn3 : ¬(spec_id < SpecId.CANCUN ∧ (data.blobs.isSome = true ∨ data.blob_hashes.isSome = true)))
    (h : data.gas_price.isSome = true ∧ data.max_fee_per_gas.isSome = true) :
    validate_transaction_spec spec_id data =
      .error (.InvalidTransactionInput "Cannot send both gasPrice and maxFeePerGas params") := by
  unfold validate_transaction_spec
  rw [if_neg hn1, if_neg hn2, if_neg hn3, if_pos h]

/-- Rule 4 of `validate_transaction_spec`, second conflict: gas price with
max priority fee per gas. -/
theorem vts_rule4b {spec_id : SpecId} {data : SpecValidationData}
    (hn1 : ¬(spec_id < SpecId.BERLIN ∧ data.access_list.isSome = true))
    (hn2 : ¬(spec_id < SpecId.LONDON ∧
      (data.max_fee_per_gas.isSome = true ∨ data.max_priority_fee_per_gas.isSome = true)))
    (hn3 : ¬(spec_id < SpecId.CANCUN ∧ (data.blobs.isSome = true ∨ data.blob_hashes.isSome = true)))
    (hn4a : ¬(data.gas_price.isSome = true ∧ data.max_fee_per_gas.isSome = true))
    (h : data.gas_price.isSome = true ∧ data.max_priority_fee_per_gas.isSome = true) :
    validate_transaction_spec spec_id data =
      .error (.InvalidTransactionInput "Cannot send both gasPrice and maxPriorityFeePerGas") := by
  unfold validate_transaction_spec
  rw [if_neg hn1, if_neg hn2, if_neg hn3, if_neg hn4a, if_pos h]

/-- Rule 4 of `validate_transaction_spec`, third conflict: gas price with
blobs. -/
theorem vts_rule4c {spec_id : SpecId} {data : SpecValidationData}
    (hn1 : ¬(spec_id < SpecId.BERLIN ∧ data.access_list.isSome = true))
    (hn2 : ¬(spec_id < SpecId.LONDON ∧
      (data.max_fee_per_gas.isSome = true ∨ data.max_priority_fee_per_gas.isSome = true)))
    (hn3 : ¬(spec_id < SpecId.CANCUN ∧ (data.blobs.isSome = true ∨ data.blob_hashes.isSome = true)))
    (hn4a : ¬(data.gas_price.isSome = true ∧ data.max_fee_per_gas.isSome = true))
    (hn4b : ¬(data.gas_price.isSome = true ∧ data.max_priority_fee_per_gas.isSome = true))
    (h : data.gas_price.isSome = true ∧ data.blobs.isSome = true) :
    validate_transaction_spec spec_id data =
      .error (.InvalidTransactionInput "Cannot send both gasPrice and blobs") := by
  unfold validate_transaction_spec
  rw [if_neg hn1, if_neg hn2, if_neg hn3, if_neg hn4a, if_neg hn4b, if_pos h]

/-- Rule 4 of `validate_transaction_spec`, fourth conflict: gas price with
blob hashes. -/
theorem vts_rule4d {spec_id : SpecId} {data : SpecValidationData}
    (hn1 : ¬(spec_id < SpecId.BERLIN ∧ data.access_list.isSome = true))
    (hn2 : ¬(spec_id < SpecId.LONDON ∧
      (data.max_fee_per_gas.isSome = true ∨ data.max_priority_fee_per_gas.isSome = true)))
    (hn3 : ¬(spec_id < SpecId.CANCUN ∧ (data.blobs.isSome = true ∨ data.blob_hashes.isSome = true)))
    (hn4a : ¬(data.gas_price.isSome = true ∧ data.max_fee_per_gas.isSome = true))
    (hn4b : ¬(data.gas_price.isSome = true ∧ data.max_priority_fee_per_gas.isSome = true))
    (hn4c : ¬(data.gas_price.isSome = true ∧ data.blobs.isSome = true))
    (h : data.gas_price.isSome = true ∧ data.blob_hashes.isSome = true) :
    validate_transaction_spec spec_id data =
      .error (.InvalidTransactionInput "Cannot send both gasPrice and blobHashes") := by
  unfold validate_transaction_spec
  rw [if_neg hn1, if_neg hn2, if_neg hn3, if_neg hn4a, if_neg hn4b, if_neg hn4c, if_pos h]

/-- Rule 5 of `validate_transaction_spec`: the fee-ordering rule fires
(gas price absent, so none of the rule-4 conflicts can apply). -/
theorem vts_rule5 {spec_id : SpecId} {data : SpecValidationData} {max_fee max_priority : Nat}
    (hn1 : ¬(spec_id < SpecId.BERLIN ∧ data.access_list.isSome = true))
    (hn2 : ¬(spec_id < SpecId.LONDON ∧
      (data.max_fee_per_gas.isSome = true ∨ data.max_priority_fee_per_gas.isSome = true)))
    (hn3 : ¬(spec_id < SpecId.CANCUN ∧ (data.blobs.isSome = true ∨ data.blob_hashes.isSome = true)))
    (hgp : data.gas_price.isSome = false)
    (hmf : data.max_fee_per_gas = some max_fee)
    (hmp : data.max_priority_fee_per_gas = some max_priority)
    (hgt : max_priority > max_fee) :
    validate_transaction_spec spec_id data =
      .error (.InvalidTransactionInput (feeOrderingMessage max_priority max_fee)) := by
  unfold validate_transaction_spec
  rw [if_neg hn1, if_neg hn2, if_neg hn3,
    if_neg (fun h => bool_eq_false_ne_true hgp h.1),
    if_neg (fun h => bool_eq_false_ne_true hgp h.1),
    if_neg (fun h => bool_eq_false_ne_true hgp h.1),
    if_neg (fun h => bool_eq_false_ne_true hgp h.1)]
  simp only [hmf, hmp]
  rw [if_pos hgt]

/-- `validate_transaction_spec` succeeds when no rule applies. -/
theorem vts_ok {spec_id : SpecId} {data : SpecValidationData}
    (hn1 : ¬(spec_id < SpecId.BERLIN ∧ data.access_list.isSome = true))
    (hn2 : ¬(spec_id < SpecId.LONDON ∧
      (data.max_fee_per_gas.isSome = true ∨ data.max_priority_fee_per_gas.isSome = true)))
    (hn3 : ¬(spec_id < SpecId.CANCUN ∧ (data.blobs.isSome = true ∨ data.blob_hashes.isSome = true)))
    (hn4a : ¬(data.gas_price.isSome = true ∧ data.max_fee_per_gas.isSome = true))
    (hn4b : ¬(data.gas_price.isSome = true ∧ data.max_priority_fee_per_gas.isSome = true))
    (hn4c : ¬(data.gas_price.isSome = true ∧ data.blobs.isSome = true))
    (hn4d : ¬(data.gas_price.isSome = true ∧ data.blob_hashes.isSome = true))
    (h5 : ∀ max_fee max_priority, data.max_fee_per_gas = some max_fee →
      data.max_priority_fee_per_gas = some max_priority → max_priority ≤ max_fee) :
    validate_transaction_spec spec_id data = .ok () := by
  unfold validate_transaction_spec
  rw [if_neg hn1, if_neg hn2, if_neg hn3, if_neg hn4a, if_neg hn4b, if_neg hn4c, if_neg hn4d]
  rcases hmf : data.max_fee_per_gas with _ | max_fee <;>
    rcases hmp : data.max_priority_fee_per_gas with _ | max_priority <;>
    simp only []
  rw [if_neg (Nat.not_lt.mpr (h5 max_fee max_priority hmf hmp))]

/-- C1: at a hardfork preceding the fee-market (London) upgrade, a request
with `max_fee_per_gas` present is rejected with the unsupported-fee-market
violation, but — contrary to the claim — the `minimum_hardfork` field of
that violation is Berlin, not London (validation.rs line 120), shown at
the concrete failing input (hardfork Istanbul, `max_fee_per_gas = 0`). -/
theorem fee_market_minimum_hardfork_is_berlin_not_london :
    validate_transaction_spec SpecId.ISTANBUL { emptyData with max_fee_per_gas := some 0 } =
      .error (.UnsupportedEIP1559Parameters SpecId.ISTANBUL SpecId.BERLIN) ∧
    SpecId.BERLIN ≠ SpecId.LONDON :=
  ⟨rfl, by decide⟩

/-- C4: before the Berlin upgrade, any request with an access list present
fails with the unsupported-access-list violation carrying
`minimum_hardfork = Berlin`; from Berlin on, the validation outcome never
depends on the access list, so an otherwise-valid request with an access
list (an empty one included) succeeds — shown concretely at hardforks
Berlin and Muir Glacier for the request whose only populated field is an
empty access list. -/
theorem access_list_gate_behaviour (spec_id : SpecId) (data : SpecValidationData) :
    (spec_id < SpecId.BERLIN → data.access_list.isSome = true →
      validate_transaction_spec spec_id data =
        .error (.UnsupportedAccessListParameter spec_id SpecId.BERLIN)) ∧
    (∀ al, SpecId.BERLIN ≤ spec_id →
      validate_transaction_spec spec_id { data with access_list := al } =
        validate_transaction_spec spec_id { data with access_list := none }) ∧
    validate_transaction_spec SpecId.BERLIN { emptyData with access_list := some [] } = .ok () ∧
    validate_transaction_spec SpecId.MUIR_GLACIER { emptyData with access_list := some [] } =
      .error (.UnsupportedAccessListParameter SpecId.MUIR_GLACIER SpecId.BERLIN) := by
  refine ⟨fun h1 h2 => vts_rule1 ⟨h1, h2⟩, fun al hle => ?_, rfl, rfl⟩
  obtain ⟨gp, mf, mp, al0, bl, bh⟩ := data
  have hn : ¬ spec_id < SpecId.BERLIN := (SpecId.not_lt spec_id SpecId.BERLIN).mpr hle
  simp [validate_transaction_spec, hn]

/-- C9: whenever the external mine-and-commit step succeeds, the
mine-block handler fails with the not-yet-implemented error naming the
`log_block` step; it never returns the success literal "0" (or any other
success), and a failing mine step propagates its own error. -/
theorem mine_request_never_silently_succeeds :
    (∀ mine_block_result : MineBlockResult,
      handle_mine_request (.ok mine_block_result) = .error (.Unimplemented "log_block")) ∧
    (∀ (mine_block_result : MineBlockResult) (s : String),
      handle_mine_request (.ok mine_block_result) ≠ .ok s) ∧
    (∀ e, handle_mine_request (.error e) = .error e) :=
  ⟨fun _ => rfl, fun _ _ h => Except.noConfusion h, fun _ => rfl⟩

/-- A `Bool` that is not `true` is `false`. -/
theorem bool_not_true_eq_false {b : Bool} (h : ¬ b = true) : b = false := by
  cases b <;> simp_all

/-- C3: `validate_transaction_spec` evaluates its five rules in the fixed
order access-list gate, fee-market gate, blob gate, gas-price conflicts,
fee ordering; the first applicable rule's violation is the result, a
request passing all five succeeds, and in particular (the claim's example)
at any pre-Berlin hardfork a request carrying both an access list and
fee-market fields yields the unsupported-access-list violation, not the
fee-market one. -/
theorem rules_fixed_order_first_applicable_wins (spec_id : SpecId) (data : SpecValidationData) :
    (spec_id < SpecId.BERLIN ∧ data.access_list.isSome = true →
      validate_transaction_spec spec_id data =
        .error (.UnsupportedAccessListParameter spec_id SpecId.BERLIN)) ∧
    (¬(spec_id < SpecId.BERLIN ∧ data.access_list.isSome = true) →
      spec_id < SpecId.LONDON ∧
        (data.max_fee_per_gas.isSome = true ∨ data.max_priority_fee_per_gas.isSome = true) →
      validate_transaction_spec spec_id data =
        .error (.UnsupportedEIP1559Parameters spec_id SpecId.BERLIN)) ∧
    (¬(spec_id < SpecId.BERLIN ∧ data.access_list.isSome = true) →
      ¬(spec_id < SpecId.LONDON ∧
        (data.max_fee_per_gas.isSome = true ∨ data.max_priority_fee_per_gas.isSome = true)) →
      spec_id < SpecId.CANCUN ∧ (data.blobs.isSome = true ∨ data.blob_hashes.isSome = true) →
      validate_transaction_spec spec_id data =
        .error (.UnsupportedEIP4844Parameters spec_id SpecId.CANCUN)) ∧
    (¬(spec_id < SpecId.BERLIN ∧ data.access_list.isSome = true) →
      ¬(spec_id < SpecId.LONDON ∧
        (data.max_fee_per_gas.isSome = true ∨ data.max_priority_fee_per_gas.isSome = true)) →
      ¬(spec_id < SpecId.CANCUN ∧ (data.blobs.isSome = true ∨ data.blob_hashes.isSome = true)) →
      data.gas_price.isSome = true ∧
        (data.max_fee_per_gas.isSome = true ∨ data.max_priority_fee_per_gas.isSome = true ∨
          data.blobs.isSome = true ∨ data.blob_hashes.isSome = true) →
      ∃ detail, validate_transaction_spec spec_id data =
          .error (.InvalidTransactionInput detail) ∧ detail ∈ gasPriceConflictMessages) ∧
    (¬(spec_id < SpecId.BERLIN ∧ data.access_list.isSome = true) →
      ¬(spec_id < SpecId.LONDON ∧
        (data.max_fee_per_gas.isSome = true ∨ data.max_priority_fee_per_gas.isSome = true)) →
      ¬(spec_id < SpecId.CANCUN ∧ (data.blobs.isSome = true ∨ data.blob_hashes.isSome = true)) →
      ¬(data.gas_price.isSome = true ∧
        (data.max_fee_per_gas.isSome = true ∨ data.max_priority_fee_per_gas.isSome = true ∨
          data.blobs.isSome = true ∨ data.blob_hashes.isSome = true)) →
      ∀ max_fee max_priority, data.max_fee_per_gas = some max_fee →
        data.max_priority_fee_per_gas = some max_priority → max_priority > max_fee →
        validate_transaction_spec spec_id data =
          .error (.InvalidTransactionInput (feeOrderingMessage max_priority max_fee))) ∧
    (¬(spec_id < SpecId.BERLIN ∧ data.access_list.isSome = true) →
      ¬(spec_id < SpecId.LONDON ∧
        (data.max_fee_per_gas.isSome = true ∨ data.max_priority_fee_per_gas.isSome = true)) →
      ¬(spec_id < SpecId.CANCUN ∧ (data.blobs.isSome = true ∨ data.blob_hashes.isSome = true)) →
      ¬(data.gas_price.isSome = true ∧
        (data.max_fee_per_gas.isSome = true ∨ data.max_priority_fee_per_gas.isSome = true ∨
          data.blobs.isSome = true ∨ data.blob_hashes.isSome = true)) →
      (∀ max_fee max_priority, data.max_fee_per_gas = some max_fee →
        data.max_priority_fee_per_gas = some max_priority → max_priority ≤ max_fee) →
      validate_transaction_spec spec_id data = .ok ()) ∧
    (spec_id < SpecId.BERLIN → data.access_list.isSome = true →
      data.max_fee_per_gas.isSome = true ∨ data.max_priority_fee_per_gas.isSome = true →
      validate_transaction_spec spec_id data =
        .error (.UnsupportedAccessListParameter spec_id SpecId.BERLIN)) := by
  refine ⟨fun h => vts_rule1 h, fun hn1 h => vts_rule2 hn1 h,
    fun hn1 hn2 h => vts_rule3 hn1 hn2 h, ?_, ?_, ?_,
    fun h1 h2 _ => vts_rule1 ⟨h1, h2⟩⟩
  · intro hn1 hn2 hn3 h
    obtain ⟨hgp, hdisj⟩ := h
    by_cases hmf : data.max_fee_per_gas.isSome = true
    · exact ⟨_, vts_rule4a hn1 hn2 hn3 ⟨hgp, hmf⟩, by simp [gasPriceConflictMessages]⟩
    · by_cases hmp : data.max_priority_fee_per_gas.isSome = true
      · exact ⟨_, vts_rule4b hn1 hn2 hn3 (fun hc => hmf hc.2) ⟨hgp, hmp⟩,
          by simp [gasPriceConflictMessages]⟩
      · by_cases hbl : data.blobs.isSome = true
        · exact ⟨_, vts_rule4c hn1 hn2 hn3 (fun hc => hmf hc.2) (fun hc => hmp hc.2) ⟨hgp, hbl⟩,
            by simp [gasPriceConflictMessages]⟩
        · have hbh : data.blob_hashes.isSome = true := by
            rcases hdisj with h | h | h | h
            · exact absurd h hmf
            · exact absurd h hmp
            · exact absurd h hbl
            · exact h
          exact ⟨_, vts_rule4d hn1 hn2 hn3 (fun hc => hmf hc.2) (fun hc => hmp hc.2)
            (fun hc => hbl hc.2) ⟨hgp, hbh⟩, by simp [gasPriceConflictMessages]⟩
  · intro hn1 hn2 hn3 hn4 max_fee max_priority hmf hmp hgt
    have hgp : data.gas_price.isSome = false := by
      by_cases hc : data.gas_price.isSome = true
      · exact absurd ⟨hc, Or.inl (by rw [hmf]; rfl)⟩ hn4
      · exact bool_not_true_eq_false hc
    exact vts_rule5 hn1 hn2 hn3 hgp hmf hmp hgt
  · intro hn1 hn2 hn3 hn4 h5
    exact vts_ok hn1 hn2 hn3 (fun hc => hn4 ⟨hc.1, Or.inl hc.2⟩)
      (fun hc => hn4 ⟨hc.1, Or.inr (Or.inl hc.2)⟩)
      (fun hc => hn4 ⟨hc.1, Or.inr (Or.inr (Or.inl hc.2))⟩)
      (fun hc => hn4 ⟨hc.1, Or.inr (Or.inr (Or.inr hc.2))⟩) h5

/-- C2 (counterexample): at a pre-London hardfork, a request with both
`gas_price` and `max_fee_per_gas` present is rejected with the
unsupported-fee-market violation, not with an invalid-input violation —
the fee-market gate precedes the gas-price conflict rule. -/
theorem gas_price_conflict_pre_london_not_invalid_input :
    validate_transaction_spec SpecId.ISTANBUL
        { emptyData with gas_price := some 0, max_fee_per_gas := some 0 } =
      .error (.UnsupportedEIP1559Parameters SpecId.ISTANBUL SpecId.BERLIN) ∧
    resultIsInvalidInput (validate_transaction_spec SpecId.ISTANBUL
        { emptyData with gas_price := some 0, max_fee_per_gas := some 0 }) = false :=
  ⟨rfl, rfl⟩

/-- C2 (amended): a request with `gas_price` present together with any of
`max_fee_per_gas`, `max_priority_fee_per_gas`, `blobs` or `blob_hashes`
always fails validation; the violation is the invalid-input one with the
distinct detail string naming the two conflicting fields whenever none of
the three hardfork feature gates fires first, and each of the four
combinations is shown with its exact detail string (the last conjunct is
the spec's concrete London scenario). -/
theorem gas_price_conflict_rules (spec_id : SpecId) (data : SpecValidationData) :
    (data.gas_price.isSome = true →
      (data.max_fee_per_gas.isSome = true ∨ data.max_priority_fee_per_gas.isSome = true ∨
        data.blobs.isSome = true ∨ data.blob_hashes.isSome = true) →
      ∃ e, validate_transaction_spec spec_id data = .error e) ∧
    (¬(spec_id < SpecId.BERLIN ∧ data.access_list.isSome = true) →
      ¬(spec_id < SpecId.LONDON ∧
        (data.max_fee_per_gas.isSome = true ∨ data.max_priority_fee_per_gas.isSome = true)) →
      ¬(spec_id < SpecId.CANCUN ∧ (data.blobs.isSome = true ∨ data.blob_hashes.isSome = true)) →
      data.gas_price.isSome = true → data.max_fee_per_gas.isSome = true →
      validate_transaction_spec spec_id data =
        .error (.InvalidTransactionInput "Cannot send both gasPrice and maxFeePerGas params")) ∧
    (¬(spec_id < SpecId.BERLIN ∧ data.access_list.isSome = true) →
      ¬(spec_id < SpecId.LONDON ∧
        (data.max_fee_per_gas.isSome = true ∨ data.max_priority_fee_per_gas.isSome = true)) →
      ¬(spec_id < SpecId.CANCUN ∧ (data.blobs.isSome = true ∨ data.blob_hashes.isSome = true)) →
      data.gas_price.isSome = true → data.max_fee_per_gas.isSome = false →
      data.max_priority_fee_per_gas.isSome = true →
      validate_transaction_spec spec_id data =
        .error (.InvalidTransactionInput "Cannot send both gasPrice and maxPriorityFeePerGas")) ∧
    (¬(spec_id < SpecId.BERLIN ∧ data.access_list.isSome = true) →
      ¬(spec_id < SpecId.LONDON ∧
        (data.max_fee_per_gas.isSome = true ∨ data.max_priority_fee_per_gas.isSome = true)) →
      ¬(spec_id < SpecId.CANCUN ∧ (data.blobs.isSome = true ∨ data.blob_hashes.isSome = true)) →
      data.gas_price.isSome = true → data.max_fee_per_gas.isSome = false →
      data.max_priority_fee_per_gas.isSome = false → data.blobs.isSome = true →
      validate_transaction_spec spec_id data =
        .error (.InvalidTransactionInput "Cannot send both gasPrice and blobs")) ∧
    (¬(spec_id < SpecId.BERLIN ∧ data.access_list.isSome = true) →
      ¬(spec_id < SpecId.LONDON ∧
        (data.max_fee_per_gas.isSome = true ∨ data.max_priority_fee_per_gas.isSome = true)) →
      ¬(spec_id < SpecId.CANCUN ∧ (data.blobs.isSome = true ∨ data.blob_hashes.isSome = true)) →
      data.gas_price.isSome = true → data.max_fee_per_gas.isSome = false →
      data.max_priority_fee_per_gas.isSome = false → data.blobs.isSome = false →
      data.blob_hashes.isSome = true →
      validate_transaction_spec spec_id data =
        .error (.InvalidTransactionInput "Cannot send both gasPrice and blobHashes")) ∧
    validate_transaction_spec SpecId.LONDON
        { emptyData with gas_price := some 0, max_fee_per_gas := some 0 } =
      .error (.InvalidTransactionInput "Cannot send both gasPrice and maxFeePerGas params") := by
  refine ⟨?_, ?_, ?_, ?_, ?_, rfl⟩
  · intro hgp hdisj
    by_cases h1 : spec_id < SpecId.BERLIN ∧ data.access_list.isSome = true
    · exact ⟨_, vts_rule1 h1⟩
    · by_cases h2 : spec_id < SpecId.LONDON ∧
        (data.max_fee_per_gas.isSome = true ∨ data.max_priority_fee_per_gas.isSome = true)
      · exact ⟨_, vts_rule2 h1 h2⟩
      · by_cases h3 : spec_id < SpecId.CANCUN ∧
          (data.blobs.isSome = true ∨ data.blob_hashes.isSome = true)
        · exact ⟨_, vts_rule3 h1 h2 h3⟩
        · by_cases hmf : data.max_fee_per_gas.isSome = true
          · exact ⟨_, vts_rule4a h1 h2 h3 ⟨hgp, hmf⟩⟩
          · by_cases hmp : data.max_priority_fee_per_gas.isSome = true
            · exact ⟨_, vts_rule4b h1 h2 h3 (fun hc => hmf hc.2) ⟨hgp, hmp⟩⟩
            · by_cases hbl : data.blobs.isSome = true
              · exact ⟨_, vts_rule4c h1 h2 h3 (fun hc => hmf hc.2) (fun hc => hmp hc.2)
                  ⟨hgp, hbl⟩⟩
              · have hbh : data.blob_hashes.isSome = true := by
                  rcases hdisj with h | h | h | h
                  · exact absurd h hmf
                  · exact absurd h hmp
                  · exact absurd h hbl
                  · exact h
                exact ⟨_, vts_rule4d h1 h2 h3 (fun hc => hmf hc.2) (fun hc => hmp hc.2)
                  (fun hc => hbl hc.2) ⟨hgp, hbh⟩⟩
  · intro hn1 hn2 hn3 hgp hmf
    exact vts_rule4a hn1 hn2 hn3 ⟨hgp, hmf⟩
  · intro hn1 hn2 hn3 hgp hmf hmp
    exact vts_rule4b hn1 hn2 hn3 (fun hc => bool_eq_false_ne_true hmf hc.2) ⟨hgp, hmp⟩
  · intro hn1 hn2 hn3 hgp hmf hmp hbl
    exact vts_rule4c hn1 hn2 hn3 (fun hc => bool_eq_false_ne_true hmf hc.2)
      (fun hc => bool_eq_false_ne_true hmp hc.2) ⟨hgp, hbl⟩
  · intro hn1 hn2 hn3 hgp hmf hmp hbl hbh
    exact vts_rule4d hn1 hn2 hn3 (fun hc => bool_eq_false_ne_true hmf hc.2)
      (fun hc => bool_eq_false_ne_true hmp hc.2)
      (fun hc => bool_eq_false_ne_true hbl hc.2) ⟨hgp, hbh⟩

/-- C8 (counterexample): at a pre-London hardfork, a request with
`max_priority_fee_per_gas` exceeding `max_fee_per_gas` is rejected with
the unsupported-fee-market violation, not with an invalid-input violation
— the fee-market gate precedes the fee-ordering rule. -/
theorem fee_ordering_pre_london_not_invalid_input :
    validate_transaction_spec SpecId.ISTANBUL
        { emptyData with max_fee_per_gas := some 0, max_priority_fee_per_gas := some 1 } =
      .error (.UnsupportedEIP1559Parameters SpecId.ISTANBUL SpecId.BERLIN) ∧
    resultIsInvalidInput (validate_transaction_spec SpecId.ISTANBUL
        { emptyData with max_fee_per_gas := some 0, max_priority_fee_per_gas := some 1 }) =
      false :=
  ⟨rfl, rfl⟩

/-- C8 (amended): a request with both fee fields present and the priority
fee strictly above the max fee always fails validation; the violation is
the invalid-input one whose detail string states both numeric values
whenever no earlier rule fires first (no feature gate applies and
`gas_price` is absent); when the priority fee is less than or equal to the
max fee the rule passes, so such a request succeeds once the earlier rules
pass — shown concretely at London for the spec's scenario
`{max_fee_per_gas: 0, max_priority_fee_per_gas: 1}` and for equal fees. -/
theorem fee_ordering_rule_behaviour (spec_id : SpecId) (data : SpecValidationData)
    (max_fee max_priority : Nat) :
    (data.max_fee_per_gas = some max_fee → data.max_priority_fee_per_gas = some max_priority →
      max_priority > max_fee → ∃ e, validate_transaction_spec spec_id data = .error e) ∧
    (¬(spec_id < SpecId.BERLIN ∧ data.access_list.isSome = true) →
      ¬(spec_id < SpecId.LONDON ∧
        (data.max_fee_per_gas.isSome = true ∨ data.max_priority_fee_per_gas.isSome = true)) →
      ¬(spec_id < SpecId.CANCUN ∧ (data.blobs.isSome = true ∨ data.blob_hashes.isSome = true)) →
      data.gas_price = none →
      data.max_fee_per_gas = some max_fee → data.max_priority_fee_per_gas = some max_priority →
      max_priority > max_fee →
      validate_transaction_spec spec_id data =
        .error (.InvalidTransactionInput (feeOrderingMessage max_priority max_fee))) ∧
    (¬(spec_id < SpecId.BERLIN ∧ data.access_list.isSome = true) →
      ¬(spec_id < SpecId.LONDON ∧
        (data.max_fee_per_gas.isSome = true ∨ data.max_priority_fee_per_gas.isSome = true)) →
      ¬(spec_id < SpecId.CANCUN ∧ (data.blobs.isSome = true ∨ data.blob_hashes.isSome = true)) →
      data.gas_price = none →
      data.max_fee_per_gas = some max_fee → data.max_priority_fee_per_gas = some max_priority →
      max_priority ≤ max_fee →
      validate_transaction_spec spec_id data = .ok ()) ∧
    validate_transaction_spec SpecId.LONDON
        { emptyData with max_fee_per_gas := some 0, max_priority_fee_per_gas := some 1 } =
      .error (.InvalidTransactionInput
        "maxPriorityFeePerGas (1) is bigger than maxFeePerGas (0)") ∧
    validate_transaction_spec SpecId.LONDON
        { emptyData with max_fee_per_gas := some 1, max_priority_fee_per_gas := some 1 } =
      .ok () := by
  refine ⟨?_, ?_, ?_, rfl, rfl⟩
  · intro hmf hmp hgt
    by_cases h1 : spec_id < SpecId.BERLIN ∧ data.access_list.isSome = true
    · exact ⟨_, vts_rule1 h1⟩
    · by_cases h2 : spec_id < SpecId.LONDON ∧
        (data.max_fee_per_gas.isSome = true ∨ data.max_priority_fee_per_gas.isSome = true)
      · exact ⟨_, vts_rule2 h1 h2⟩
      · by_cases h3 : spec_id < SpecId.CANCUN ∧
          (data.blobs.isSome = true ∨ data.blob_hashes.isSome = true)
        · exact ⟨_, vts_rule3 h1 h2 h3⟩
        · by_cases hgp : data.gas_price.isSome = true
          · exact ⟨_, vts_rule4a h1 h2 h3 ⟨hgp, by rw [hmf]; rfl⟩⟩
          · exact ⟨_, vts_rule5 h1 h2 h3 (bool_not_true_eq_false hgp) hmf hmp hgt⟩
  · intro hn1 hn2 hn3 hgp hmf hmp hgt
    exact vts_rule5 hn1 hn2 hn3 (by rw [hgp]; rfl) hmf hmp hgt
  · intro hn1 hn2 hn3 hgp hmf hmp hle
    have hgpf : data.gas_price.isSome = false := by rw [hgp]; rfl
    refine vts_ok hn1 hn2 hn3 (fun hc => bool_eq_false_ne_true hgpf hc.1)
      (fun hc => bool_eq_false_ne_true hgpf hc.1)
      (fun hc => bool_eq_false_ne_true hgpf hc.1)
      (fun hc => bool_eq_false_ne_true hgpf hc.1) ?_
    intro mf mp hmf' hmp'
    rw [hmf] at hmf'
    rw [hmp] at hmp'
    obtain rfl := Option.some.inj hmf'
    obtain rfl := Option.some.inj hmp'
    exact hle

/-- An `Option` whose `isSome` is `false` is `none`. -/
theorem option_isSome_false_eq_none {α : Type} {o : Option α} (h : o.isSome = false) :
    o = none := by
  cases o <;> simp_all

/-- The message built by the fee-market rewrite of `validate_call_request`
is exactly the spec's §6 EIP-1559 wording followed by the Rust string
literal's trailing newline and eight spaces of indentation. -/
theorem eip1559_message_eq_spec_wording (minimum_hardfork : SpecId) :
    eip1559UnsupportedMessage minimum_hardfork =
      spec_eip1559_rejection_wording minimum_hardfork.debugFormat ++ "\n        " := by
  cases minimum_hardfork <;> rfl

/-- The message built by the access-list rewrite of
`validate_transaction_and_call_request` is exactly the spec's §6
access-list wording followed by the Rust string literal's trailing newline
and eight spaces of indentation. -/
theorem access_list_message_eq_spec_wording (minimum_hardfork : SpecId) :
    accessListUnsupportedMessage minimum_hardfork =
      spec_access_list_rejection_wording minimum_hardfork.debugFormat ++ "\n        " := by
  cases minimum_hardfork <;> rfl

/-- C5 (counterexample): the invalid-argument message produced for a
fee-market violation is the spec's §6 wording with a trailing newline and
eight spaces appended, hence not the §6 wording character for character —
shown for the call request `{max_fee_per_gas: 0}` at hardfork Berlin. -/
theorem eip1559_rejection_wording_has_trailing_whitespace :
    validate_call_request SpecId.BERLIN { emptyCallRequest with max_fee_per_gas := some 0 }
        (BlockSpec.Tag BlockTag.Latest) =
      .error (.InvalidArgument (spec_eip1559_rejection_wording "BERLIN" ++ "\n        ")) ∧
    spec_eip1559_rejection_wording "BERLIN" ++ "\n        " ≠
      spec_eip1559_rejection_wording "BERLIN" :=
  ⟨rfl, by decide⟩

/-- C5 (amended): `validate_call_request` rewrites an
unsupported-fee-market violation, and
`validate_transaction_and_call_request` rewrites an
unsupported-access-list violation, into an invalid-argument message that
equals the corresponding §6 wording (naming the minimum hardfork) followed
by a trailing newline and eight spaces — an artifact of the indented Rust
string literals; every other violation, and success, propagates through
both functions unchanged. -/
theorem diagnostic_translator_rewrites (spec_id : SpecId) :
    (∀ (data : SpecValidationData) (cur min : SpecId),
      validate_transaction_spec spec_id data =
        .error (.UnsupportedAccessListParameter cur min) →
      validate_transaction_and_call_request spec_id data =
        .error (.InvalidArgument (spec_access_list_rejection_wording min.debugFormat ++
          "\n        "))) ∧
    (∀ (call_request : CallRequest) (block_spec : BlockSpec) (cur min : SpecId),
      validate_post_merge_block_tags spec_id (.PostEip1898 block_spec) = .ok () →
      validate_transaction_spec spec_id (SpecValidationData.ofCallRequest call_request) =
        .error (.UnsupportedEIP1559Parameters cur min) →
      validate_call_request spec_id call_request block_spec =
        .error (.InvalidArgument (spec_eip1559_rejection_wording min.debugFormat ++
          "\n        "))) ∧
    (∀ (data : SpecValidationData) (e : ProviderError),
      validate_transaction_spec spec_id data = .error e →
      (∀ cur min, e ≠ .UnsupportedAccessListParameter cur min) →
      validate_transaction_and_call_request spec_id data = .error e) ∧
    (∀ (call_request : CallRequest) (block_spec : BlockSpec) (e : ProviderError),
      validate_post_merge_block_tags spec_id (.PostEip1898 block_spec) = .ok () →
      validate_transaction_and_call_request spec_id
        (SpecValidationData.ofCallRequest call_request) = .error e →
      (∀ cur min, e ≠ .UnsupportedEIP1559Parameters cur min) →
      validate_call_request spec_id call_request block_spec = .error e) ∧
    (∀ data : SpecValidationData, validate_transaction_spec spec_id data = .ok () →
      validate_transaction_and_call_request spec_id data = .ok ()) := by
  refine ⟨?_, ?_, ?_, ?_, ?_⟩
  · intro data cur min h
    simp only [validate_transaction_and_call_request, h]
    rw [← access_list_message_eq_spec_wording]
  · intro call_request block_spec cur min htags hvts
    simp only [validate_call_request, htags, validate_transaction_and_call_request, hvts]
    rw [← eip1559_message_eq_spec_wording]
  · intro data e h hne
    cases e <;> first
      | exact absurd rfl (hne _ _)
      | (simp only [validate_transaction_and_call_request, h])
  · intro call_request block_spec e htags hvtc hne
    cases e <;> first
      | exact absurd rfl (hne _ _)
      | (simp only [validate_call_request, htags, hvtc])
  · intro data h
    simp only [validate_transaction_and_call_request, h]

/-- C6: the block-tag guard succeeds for every pair of hardfork and block
reference except when the hardfork precedes the Merge upgrade and the
reference is the safe or finalized tag, in which case it fails with the
invalid-block-tag violation carrying that tag and that hardfork; and the
pre-EIP-1898 and post-EIP-1898 wire shapes of the same block reference
always validate identically. -/
theorem post_merge_block_tags_behaviour (hardfork : SpecId) :
    (∀ block_spec, SpecId.MERGE ≤ hardfork →
      validate_post_merge_block_tags hardfork block_spec = .ok ()) ∧
    (∀ tag, (tag = BlockTag.Safe ∨ tag = BlockTag.Finalized) → hardfork < SpecId.MERGE →
      validate_post_merge_block_tags hardfork (.PreEip1898 (.Tag tag)) =
        .error (.InvalidBlockTag tag hardfork) ∧
      validate_post_merge_block_tags hardfork (.PostEip1898 (.Tag tag)) =
        .error (.InvalidBlockTag tag hardfork)) ∧
    (∀ block_spec, (∀ tag, (tag = BlockTag.Safe ∨ tag = BlockTag.Finalized) →
        block_spec ≠ .PreEip1898 (.Tag tag) ∧ block_spec ≠ .PostEip1898 (.Tag tag)) →
      validate_post_merge_block_tags hardfork block_spec = .ok ()) ∧
    (∀ pre, validate_post_merge_block_tags hardfork (.PreEip1898 pre) =
      validate_post_merge_block_tags hardfork
        (.PostEip1898 ((ValidationBlockSpec.PreEip1898 pre).toBlockSpec))) := by
  refine ⟨?_, ?_, ?_, ?_⟩
  · intro block_spec hle
    unfold validate_post_merge_block_tags
    rw [if_neg ((SpecId.not_lt hardfork SpecId.MERGE).mpr hle)]
  · intro tag htag hlt
    rcases htag with rfl | rfl <;>
      exact ⟨by simp [validate_post_merge_block_tags, hlt],
        by simp [validate_post_merge_block_tags, hlt]⟩
  · intro block_spec hb
    by_cases hm : hardfork < SpecId.MERGE
    · rcases block_spec with pre | post
      · rcases pre with n | t
        · simp [validate_post_merge_block_tags, hm]
        · cases t with
          | Safe => exact absurd rfl (hb BlockTag.Safe (Or.inl rfl)).1
          | Finalized => exact absurd rfl (hb BlockTag.Finalized (Or.inr rfl)).1
          | Earliest => simp [validate_post_merge_block_tags, hm]
          | Latest => simp [validate_post_merge_block_tags, hm]
          | Pending => simp [validate_post_merge_block_tags, hm]
      · rcases post with n | t | ⟨bh, rc⟩
        · simp [validate_post_merge_block_tags, hm]
        · cases t with
          | Safe => exact absurd rfl (hb BlockTag.Safe (Or.inl rfl)).2
          | Finalized => exact absurd rfl (hb BlockTag.Finalized (Or.inr rfl)).2
          | Earliest => simp [validate_post_merge_block_tags, hm]
          | Latest => simp [validate_post_merge_block_tags, hm]
          | Pending => simp [validate_post_merge_block_tags, hm]
        · simp [validate_post_merge_block_tags, hm]
    · unfold validate_post_merge_block_tags
      rw [if_neg hm]
  · intro pre
    rcases pre with n | t
    · by_cases hm : hardfork < SpecId.MERGE <;>
        simp [validate_post_merge_block_tags, ValidationBlockSpec.toBlockSpec, hm]
    · cases t <;> by_cases hm : hardfork < SpecId.MERGE <;>
        simp [validate_post_merge_block_tags, ValidationBlockSpec.toBlockSpec, hm]

/-- C7: the EIP-3860 guard succeeds unless all four of these hold — the
hardfork is at or after Shanghai, the destination address is absent
(contract creation), the allow-unlimited flag is false, and the payload
length strictly exceeds the protocol maximum — and on violation it returns
the invalid-argument message stating the actual length and the maximum and
naming the `allowUnlimitedContractSize` override option (rendered
concretely in the last conjunct for a payload of 49153 bytes). -/
theorem eip3860_initcode_guard_behaviour (spec_id : SpecId)
    (allow_unlimited_contract_code_size : Bool) (to_address : Option Nat) (data : List Nat) :
    (spec_id < SpecId.SHANGHAI ∨ to_address.isSome = true ∨
        allow_unlimited_contract_code_size = true →
      validate_eip3860_max_initcode_size spec_id allow_unlimited_contract_code_size
        to_address data = .ok ()) ∧
    (SpecId.SHANGHAI ≤ spec_id → to_address = none →
      allow_unlimited_contract_code_size = false → data.length ≤ MAX_INITCODE_SIZE →
      validate_eip3860_max_initcode_size spec_id allow_unlimited_contract_code_size
        to_address data = .ok ()) ∧
    (SpecId.SHANGHAI ≤ spec_id → to_address = none →
      allow_unlimited_contract_code_size = false → data.length > MAX_INITCODE_SIZE →
      validate_eip3860_max_initcode_size spec_id allow_unlimited_contract_code_size
        to_address data = .error (.InvalidArgument (initcodeSizeMessage data.length))) ∧
    initcodeSizeMessage 49153 =
      "\nTrying to send a deployment transaction whose init code length is 49153. The max length allowed by EIP-3860 is 49152.\n\nEnable the 'allowUnlimitedContractSize' option to allow init codes of any length." := by
  refine ⟨?_, ?_, ?_, rfl⟩
  · intro h
    unfold validate_eip3860_max_initcode_size
    rw [if_pos h]
  · intro hle hto hallow hlen
    have hn : ¬(spec_id < SpecId.SHANGHAI ∨ to_address.isSome = true ∨
        allow_unlimited_contract_code_size = true) := by
      rintro (h | h | h)
      · exact (SpecId.not_lt spec_id SpecId.SHANGHAI).mpr hle h
      · rw [hto] at h
        exact Bool.noConfusion h
      · rw [hallow] at h
        exact Bool.noConfusion h
    unfold validate_eip3860_max_initcode_size
    rw [if_neg hn, if_neg (Nat.not_lt.mpr hlen)]
  · intro hle hto hallow hlen
    have hn : ¬(spec_id < SpecId.SHANGHAI ∨ to_address.isSome = true ∨
        allow_unlimited_contract_code_size = true) := by
      rintro (h | h | h)
      · exact (SpecId.not_lt spec_id SpecId.SHANGHAI).mpr hle h
      · rw [hto] at h
        exact Bool.noConfusion h
      · rw [hallow] at h
        exact Bool.noConfusion h
    unfold validate_eip3860_max_initcode_size
    rw [if_neg hn, if_pos hlen]

/-- The first character of the fee-ordering detail string is `m`, whatever
the two numbers are. -/
theorem feeOrderingMessage_head (max_priority max_fee : Nat) :
    (feeOrderingMessage max_priority max_fee).data.head? = some 'm' := by
  unfold feeOrderingMessage
  rw [String.data_append, String.data_append, String.data_append, String.data_append]
  rw [show ("maxPriorityFeePerGas (").data = 'm' :: ("axPriorityFeePerGas (").data from rfl]
  simp [List.cons_append]

/-- The fee-ordering detail string never coincides with any of the four
gas-price conflict detail strings. -/
theorem feeOrderingMessage_ne_conflict (max_priority max_fee : Nat) :
    ∀ s ∈ gasPriceConflictMessages, feeOrderingMessage max_priority max_fee ≠ s := by
  intro s hs heq
  have hh := feeOrderingMessage_head max_priority max_fee
  rw [heq] at hh
  simp only [gasPriceConflictMessages, List.mem_cons, List.not_mem_nil, or_false] at hs
  rcases hs with rfl | rfl | rfl | rfl <;> exact absurd hh (by decide)

/-- `validate_transaction_spec` cannot return a gas-price conflict message
when the gas price is absent or all four conflicting fields are absent. -/
theorem vts_no_gas_price_conflict {spec_id : SpecId} {data : SpecValidationData}
    {detail : String} (hmem : detail ∈ gasPriceConflictMessages)
    (hexc : data.gas_price.isSome = false ∨
      (data.max_fee_per_gas.isSome = false ∧ data.max_priority_fee_per_gas.isSome = false ∧
        data.blobs.isSome = false ∧ data.blob_hashes.isSome = false)) :
    validate_transaction_spec spec_id data ≠ .error (.InvalidTransactionInput detail) := by
  intro h
  by_cases h1 : spec_id < SpecId.BERLIN ∧ data.access_list.isSome = true
  · rw [vts_rule1 h1] at h
    simp at h
  by_cases h2 : spec_id < SpecId.LONDON ∧
    (data.max_fee_per_gas.isSome = true ∨ data.max_priority_fee_per_gas.isSome = true)
  · rw [vts_rule2 h1 h2] at h
    simp at h
  by_cases h3 : spec_id < SpecId.CANCUN ∧
    (data.blobs.isSome = true ∨ data.blob_hashes.isSome = true)
  · rw [vts_rule3 h1 h2 h3] at h
    simp at h
  rcases hexc with hgp | ⟨hmf4, hmp4, hbl4, hbh4⟩
  · rcases hmf : data.max_fee_per_gas with _ | max_fee
    · rw [vts_ok h1 h2 h3 (fun hc => bool_eq_false_ne_true hgp hc.1)
        (fun hc => bool_eq_false_ne_true hgp hc.1)
        (fun hc => bool_eq_false_ne_true hgp hc.1)
        (fun hc => bool_eq_false_ne_true hgp hc.1)
        (fun mf mp hmf' _ => by rw [hmf] at hmf'; exact Option.noConfusion hmf')] at h
      simp at h
    · rcases hmp : data.max_priority_fee_per_gas with _ | max_priority
      · rw [vts_ok h1 h2 h3 (fun hc => bool_eq_false_ne_true hgp hc.1)
          (fun hc => bool_eq_false_ne_true hgp hc.1)
          (fun hc => bool_eq_false_ne_true hgp hc.1)
          (fun hc => bool_eq_false_ne_true hgp hc.1)
          (fun mf mp _ hmp' => by rw [hmp] at hmp'; exact Option.noConfusion hmp')] at h
        simp at h
      · by_cases hgt : max_priority > max_fee
        · rw [vts_rule5 h1 h2 h3 hgp hmf hmp hgt] at h
          simp only [Except.error.injEq, ProviderError.InvalidTransactionInput.injEq] at h
          exact feeOrderingMessage_ne_conflict max_priority max_fee detail hmem h
        · rw [vts_ok h1 h2 h3 (fun hc => bool_eq_false_ne_true hgp hc.1)
            (fun hc => bool_eq_false_ne_true hgp hc.1)
            (fun hc => bool_eq_false_ne_true hgp hc.1)
            (fun hc => bool_eq_false_ne_true hgp hc.1)
            (fun mf mp hmf' hmp' => by
              rw [hmf] at hmf'
              rw [hmp] at hmp'
              obtain rfl := Option.some.inj hmf'
              obtain rfl := Option.some.inj hmp'
              exact Nat.le_of_not_lt hgt)] at h
          simp at h
  · have hmfn := option_isSome_false_eq_none hmf4
    rw [vts_ok h1 h2 h3 (fun hc => bool_eq_false_ne_true hmf4 hc.2)
      (fun hc => bool_eq_false_ne_true hmp4 hc.2)
      (fun hc => bool_eq_false_ne_true hbl4 hc.2)
      (fun hc => bool_eq_false_ne_true hbh4 hc.2)
      (fun mf mp hmf' _ => by rw [hmfn] at hmf'; exact Option.noConfusion hmf')] at h
    simp at h

/-- C10: the canonical validation view of a signed transaction has exactly
one of `gas_price` and `max_fee_per_gas` set, has
`max_priority_fee_per_gas` set exactly when `max_fee_per_gas` is, leaves
`blobs` unset for every variant (the EIP-4844 variant sets only
`blob_hashes`), and consequently validating it can never yield a gas-price
conflict invalid-input violation at any hardfork. -/
theorem signed_transaction_view_invariants (tx : SignedTransaction) :
    ((SpecValidationData.ofSignedTransaction tx).gas_price.isSome =
      !(SpecValidationData.ofSignedTransaction tx).max_fee_per_gas.isSome) ∧
    ((SpecValidationData.ofSignedTransaction tx).max_priority_fee_per_gas.isSome =
      (SpecValidationData.ofSignedTransaction tx).max_fee_per_gas.isSome) ∧
    (SpecValidationData.ofSignedTransaction tx).blobs = none ∧
    (∀ tx4844, tx = SignedTransaction.Eip4844 tx4844 →
      (SpecValidationData.ofSignedTransaction tx).blob_hashes.isSome = true) ∧
    (∀ (spec_id : SpecId) (detail : String), detail ∈ gasPriceConflictMessages →
      validate_transaction_spec spec_id (SpecValidationData.ofSignedTransaction tx) ≠
        .error (.InvalidTransactionInput detail)) := by
  refine ⟨?_, ?_, ?_, ?_, ?_⟩
  · cases tx <;> rfl
  · cases tx <;> rfl
  · cases tx <;> rfl
  · intro tx4844 heq
    subst heq
    rfl
  · intro spec_id detail hmem
    refine vts_no_gas_price_conflict hmem ?_
    cases tx with
    | PreEip155Legacy tx => exact Or.inr ⟨rfl, rfl, rfl, rfl⟩
    | PostEip155Legacy tx => exact Or.inr ⟨rfl, rfl, rfl, rfl⟩
    | Eip2930 tx => exact Or.inr ⟨rfl, rfl, rfl, rfl⟩
    | Eip1559 tx => exact Or.inl rfl
    | Eip4844 tx => exact Or.inl rfl

end EdrProvider
